import Mathlib

/-!
Verification of the infix-expression calculator in
`src/projects/calculator/src/main.cpp`.

Shallow embedding conventions:
* C++ `double` is modelled as `ℚ` (every numeric value appearing in the
  claims — 14.0, 20.0, 5.0, 0.0 — is exactly representable, and the
  arithmetic exercised by the claims is exact).
* Exceptions become `Except` values.  The error type `ParseErr`
  distinguishes the exceptions the code can actually throw; calling
  `top()`/`pop()` on an empty `std::stack` is undefined behaviour in C++
  and is modelled by the distinguished outcome `ParseErr.stackUnderflow`.
* A `for` loop whose index is manipulated inside the body is modelled by
  fuel-indexed recursion on the remaining character list; exhausting the
  fuel (the loop failing to make progress, i.e. divergence) is the
  distinguished outcome `ParseErr.nonTermination`.
-/

namespace Calculator

/-- Expression-tree nodes: `NumberNode` (leaf holding a `double`) and
`OperationNode` (operator character plus two owned children), from
`class NumberNode` / `class OperationNode` in main.cpp. -/
inductive Node where
  | num : ℚ → Node
  | op  : Char → Node → Node → Node
  deriving DecidableEq, Repr

/-- Errors thrown during `evaluate` (both are `std::runtime_error` in the
source; we keep them apart by their message). -/
inductive EvalErr where
  | divisionByZero : EvalErr   -- "Division by zero!"
  | unknownOperator : EvalErr  -- "Unknown operator"
  deriving DecidableEq, Repr

/-- The body of the `operation` lambda inside `OperationNode::evaluate`:
combine the two evaluated child values according to `op_char`. -/
def applyOp (c : Char) (left_val right_val : ℚ) : Except EvalErr ℚ :=
  if c = '+' then .ok (left_val + right_val)
  else if c = '-' then .ok (left_val - right_val)
  else if c = '*' then .ok (left_val * right_val)
  else if c = '/' then
    if right_val = 0 then .error .divisionByZero
    else .ok (left_val / right_val)
  else .error .unknownOperator

/-- `Node::evaluate` as a value-level function: a `NumberNode` returns its
stored value; an `OperationNode` evaluates the left child, then the right
child, then applies the operator (exceptions propagate). -/
def evalNode : Node → Except EvalErr ℚ
  | .num v => .ok v
  | .op c l r =>
    match evalNode l with
    | .error e => .error e
    | .ok left_val =>
      match evalNode r with
      | .error e => .error e
      | .ok right_val => applyOp c left_val right_val

/-- `Node::evaluate` with the receiver object threaded explicitly: the
call returns the (possibly updated) tree together with the result.  The
C++ method is `const` and touches no mutable state, which the embedding
makes checkable: the returned tree is provably the argument tree. -/
def evalMut : Node → Node × Except EvalErr ℚ
  | .num v => (.num v, .ok v)
  | .op c l r =>
    let lres := evalMut l
    match lres.2 with
    | .error e => (.op c lres.1 r, .error e)
    | .ok left_val =>
      let rres := evalMut r
      match rres.2 with
      | .error e => (.op c lres.1 rres.1, .error e)
      | .ok right_val => (.op c lres.1 rres.1, applyOp c left_val right_val)

/-- The contents of `OperatorPrecedence::precedence_map` after the
constructor's four insertions. -/
def precedence_map : List (Char × Int) :=
  [('+', 1), ('-', 1), ('*', 2), ('/', 2)]

/-- `OperatorPrecedence::operator()`: look the character up in the map,
returning the mapped precedence, or `0` for characters not in the map. -/
def precedence (op : Char) : Int :=
  match precedence_map.lookup op with
  | some v => v
  | none => 0

/-- `is_operator` from main.cpp. -/
def is_operator (c : Char) : Bool :=
  c = '+' || c = '-' || c = '*' || c = '/'

/-- Errors observable from `parse_expression`.  `numberError` is the
`std::invalid_argument` thrown by `std::stod`; `stackUnderflow` is the
undefined behaviour of `top()`/`pop()` on an empty `std::stack`;
`nonTermination` marks a loop iteration that consumes no input.
`unexpectedChar` is modelled from the spec: the spec's
`ParseError("unexpected character")`, which no statement of the source
ever throws — it is present only so that the spec's claimed behaviour can
be stated and compared against the code's. -/
inductive ParseErr where
  | numberError : ParseErr
  | stackUnderflow : ParseErr
  | nonTermination : ParseErr
  | unexpectedChar : ParseErr
  deriving DecidableEq, Repr

/-- C `isspace` on the characters reachable from a `std::string` (default
locale): space and the five control whitespace characters. -/
def isSpaceC (c : Char) : Bool :=
  c = ' ' || c = '\t' || c = '\n' || c.toNat = 11 || c.toNat = 12 || c = '\r'

/-- C `isdigit` applied to a character code. -/
def isDigitCode (n : Nat) : Bool :=
  48 ≤ n && n ≤ 57

/-- C `isdigit` applied to a character. -/
def isDigitC (c : Char) : Bool :=
  isDigitCode c.toNat

/-- The condition of the inner number-scanning loop, exactly as written at
line 104 of main.cpp: `isdigit(expression[i] || expression[i] == '.')`.
The `||` sits inside the `isdigit` call, so `isdigit` receives the `int`
conversion of the boolean `expression[i] || expression[i] == '.'`, i.e.
`1` for any non-NUL character (and `0` only for NUL), never a digit
code. -/
def digitScanCond (c : Char) : Bool :=
  isDigitCode (Bool.toNat (decide (c.toNat ≠ 0) || decide (c = '.')))

/-- The inner `while` loop at lines 104–107: starting at the current
position, append characters to `num_str` while `digitScanCond` holds;
return the accumulated string together with the unconsumed suffix (the
position after the `i--` / `++i` pair, i.e. the first unconsumed
character). -/
def scanNumber : List Char → String → String × List Char
  | [], acc => (acc, [])
  | c :: rest, acc =>
    if digitScanCond c then scanNumber rest (acc.push c)
    else (acc, c :: rest)

/-- Numeric value of a decimal digit character. -/
def digitVal (c : Char) : Nat := c.toNat - 48

/-- Value of a digit string read left to right. -/
def natOfDigits : List Char → Nat → Nat
  | [], acc => acc
  | c :: cs, acc => natOfDigits cs (acc * 10 + digitVal c)

/-- `std::stod` restricted to the strings `parse_expression` can build:
an optional run of digits, an optional decimal point, an optional further
run of digits.  `std::stod` throws `std::invalid_argument` when no
conversion can be performed (in particular on the empty string). -/
def stod (s : String) : Except ParseErr ℚ :=
  let cs := s.data
  let intDigits := cs.takeWhile isDigitC
  match cs.dropWhile isDigitC with
  | '.' :: rest2 =>
    let fracDigits := rest2.takeWhile isDigitC
    if intDigits.isEmpty && fracDigits.isEmpty then .error .numberError
    else .ok ((natOfDigits intDigits 0 : ℚ) +
      (natOfDigits fracDigits 0 : ℚ) / (10 : ℚ) ^ fracDigits.length)
  | _ =>
    if intDigits.isEmpty then .error .numberError
    else .ok (natOfDigits intDigits 0)

/-- The parser's working state: the operand stack `values` and the
operator stack `ops` (head of each list = top of the stack). -/
structure PState where
  values : List Node
  ops    : List Char
  deriving DecidableEq, Repr

/-- One reduction step, as repeated in the three reduction loops of
`parse_expression`: pop `right`, pop `left`, push
`OperationNode(op, left, right)`.  The source pops without checking the
operand stack's size; popping an empty stack is undefined behaviour,
reported as `stackUnderflow`. -/
def reduceTop (op : Char) (values : List Node) : Except ParseErr (List Node) :=
  match values with
  | right :: left :: vs => .ok (.op op left right :: vs)
  | _ => .error .stackUnderflow

/-- The `while` loop at lines 113–121 handling `)`: reduce while the
operator stack is non-empty and its top is not `(`; return the remaining
operator stack and the new operand stack. -/
def drainUntilParen : List Char → List Node → Except ParseErr (List Char × List Node)
  | [], values => .ok ([], values)
  | o :: os, values =>
    if o = '(' then .ok (o :: os, values)
    else
      match reduceTop o values with
      | .error e => .error e
      | .ok v2 => drainUntilParen os v2

/-- Lines 112–124 handling `)`: run `drainUntilParen`, then pop the top
of the operator stack if it is non-empty (the source pops whatever is
there and does not fail when no `(` was found). -/
def closeParen (st : PState) : Except ParseErr PState :=
  match drainUntilParen st.ops st.values with
  | .error e => .error e
  | .ok (ops2, vals2) =>
    match ops2 with
    | [] => .ok ⟨vals2, []⟩
    | _ :: os => .ok ⟨vals2, os⟩

/-- The `while` loop at lines 126–134 handling an operator `c`: reduce
while the operator stack is non-empty, its top is not `(`, and the top's
precedence is ≥ the precedence of `c`. -/
def shuntLoop (c : Char) : List Char → List Node → Except ParseErr (List Char × List Node)
  | [], values => .ok ([], values)
  | o :: os, values =>
    if o = '(' then .ok (o :: os, values)
    else if precedence c ≤ precedence o then
      match reduceTop o values with
      | .error e => .error e
      | .ok v2 => shuntLoop c os v2
    else .ok (o :: os, values)

/-- The `for` loop at lines 98–137, one constructor case per branch of
the `if`/`else if` chain.  The digit branch runs `scanNumber` from the
current character, converts the accumulated string with `stod`, pushes
the resulting `NumberNode` and resumes at the first unconsumed character;
because of an exception thrown there control never in fact resumes (see
`scanNumber_consumes_nothing`).  Characters matching no branch are
skipped (the chain has no `else`). -/
def parseChars : Nat → List Char → PState → Except ParseErr PState
  | 0, _, _ => .error .nonTermination
  | _ + 1, [], st => .ok st
  | fuel + 1, c :: rest, st =>
    if isSpaceC c then parseChars fuel rest st
    else if isDigitC c then
      match scanNumber (c :: rest) "" with
      | (num_str, rest2) =>
        match stod num_str with
        | .error e => .error e
        | .ok v => parseChars fuel rest2 ⟨.num v :: st.values, st.ops⟩
    else if c = '(' then parseChars fuel rest ⟨st.values, '(' :: st.ops⟩
    else if c = ')' then
      match closeParen st with
      | .error e => .error e
      | .ok st2 => parseChars fuel rest st2
    else if is_operator c then
      match shuntLoop c st.ops st.values with
      | .error e => .error e
      | .ok (ops2, vals2) => parseChars fuel rest ⟨vals2, c :: ops2⟩
    else parseChars fuel rest st

/-- The final drain at lines 139–147: while the operator stack is
non-empty, pop an operator and reduce — with no check for `(`, which is
treated like any operator. -/
def drainAll : List Char → List Node → Except ParseErr (List Node)
  | [], values => .ok values
  | o :: os, values =>
    match reduceTop o values with
    | .error e => .error e
    | .ok v2 => drainAll os v2

/-- `parse_expression`: run the character loop from empty stacks, drain
the operator stack, and return `values.top()` — popping an empty operand
stack (empty input, say) is undefined behaviour, reported as
`stackUnderflow`.  The fuel `s.length + 1` covers every loop iteration
that consumes input. -/
def parse_expression (s : String) : Except ParseErr Node :=
  match parseChars (s.length + 1) s.data ⟨[], []⟩ with
  | .error e => .error e
  | .ok st =>
    match drainAll st.ops st.values with
    | .error e => .error e
    | .ok vals =>
      match vals with
      | t :: _ => .ok t
      | [] => .error .stackUnderflow

/-! ### Helper lemmas -/

/-- `std::stod` on the empty string throws `std::invalid_argument`. -/
theorem stod_empty : stod "" = .error .numberError := rfl

/-- The number-scanning loop's condition is false at every character:
`isdigit` receives `0` or `1`, neither of which is a digit code. -/
theorem digitScanCond_false (c : Char) : digitScanCond c = false := by
  unfold digitScanCond
  cases (decide (c.toNat ≠ 0) || decide (c = '.')) <;> rfl

/-- Consequently the scanning loop consumes no characters at all and
`num_str` stays as it started. -/
theorem scanNumber_consumes_nothing (cs : List Char) (acc : String) :
    scanNumber cs acc = (acc, cs) := by
  cases cs with
  | nil => rfl
  | cons c rest => simp [scanNumber, digitScanCond_false]

/-- Reducing with an empty operand stack is the modelled undefined
behaviour. -/
theorem reduceTop_nil (o : Char) : reduceTop o [] = .error .stackUnderflow := rfl

/-- With an empty operand stack, the `)`-reduction loop either hits the
empty-stack undefined behaviour or stops with the operand stack still
empty. -/
theorem drainUntilParen_nil (ops : List Char) :
    drainUntilParen ops [] = .error .stackUnderflow ∨
    ∃ ops2, drainUntilParen ops [] = .ok (ops2, []) := by
  cases ops with
  | nil => exact Or.inr ⟨[], rfl⟩
  | cons o os =>
    by_cases h : o = '('
    · exact Or.inr ⟨o :: os, by simp [drainUntilParen, h]⟩
    · exact Or.inl (by simp [drainUntilParen, h, reduceTop])

/-- With an empty operand stack, handling `)` either hits the empty-stack
undefined behaviour or leaves the operand stack empty. -/
theorem closeParen_nil (ops : List Char) :
    closeParen ⟨[], ops⟩ = .error .stackUnderflow ∨
    ∃ ops2, closeParen ⟨[], ops⟩ = .ok ⟨[], ops2⟩ := by
  rcases drainUntilParen_nil ops with h | ⟨ops2, h⟩
  · exact Or.inl (by simp [closeParen, h])
  · cases ops2 with
    | nil => exact Or.inr ⟨[], by simp [closeParen, h]⟩
    | cons o os => exact Or.inr ⟨os, by simp [closeParen, h]⟩

/-- With an empty operand stack, the operator-reduction loop either hits
the empty-stack undefined behaviour or stops with the operand stack still
empty. -/
theorem shuntLoop_nil (c : Char) (ops : List Char) :
    shuntLoop c ops [] = .error .stackUnderflow ∨
    ∃ ops2, shuntLoop c ops [] = .ok (ops2, []) := by
  cases ops with
  | nil => exact Or.inr ⟨[], rfl⟩
  | cons o os =>
    by_cases h : o = '('
    · exact Or.inr ⟨o :: os, by simp [shuntLoop, h]⟩
    · by_cases h2 : precedence c ≤ precedence o
      · exact Or.inl (by simp [shuntLoop, h, h2, reduceTop])
      · exact Or.inr ⟨o :: os, by simp [shuntLoop, h, h2]⟩

/-- Starting from an empty operand stack, the character loop either fails
or finishes with the operand stack still empty: a number is never pushed
(the digit branch always throws from `stod ""`), and every other push
first pops two operands off the empty stack. -/
theorem parseChars_nil (fuel : Nat) : ∀ (cs : List Char) (ops : List Char),
    (∃ e, parseChars fuel cs ⟨[], ops⟩ = .error e) ∨
    ∃ ops2, parseChars fuel cs ⟨[], ops⟩ = .ok ⟨[], ops2⟩ := by
  induction fuel with
  | zero => exact fun cs ops => Or.inl ⟨.nonTermination, rfl⟩
  | succ n ih =>
    intro cs ops
    cases cs with
    | nil => exact Or.inr ⟨ops, rfl⟩
    | cons c rest =>
      by_cases hs : isSpaceC c = true
      · rw [show parseChars (n+1) (c :: rest) ⟨[], ops⟩
            = parseChars n rest ⟨[], ops⟩ from by simp [parseChars, hs]]
        exact ih rest ops
      · by_cases hd : isDigitC c = true
        · exact Or.inl ⟨.numberError, by
            simp [parseChars, hs, hd, scanNumber_consumes_nothing, stod_empty]⟩
        · by_cases hp : c = '('
          · subst hp
            rw [show parseChars (n+1) ('(' :: rest) ⟨[], ops⟩
                = parseChars n rest ⟨[], '(' :: ops⟩ from by simp [parseChars, hs, hd]]
            exact ih rest ('(' :: ops)
          · by_cases hq : c = ')'
            · subst hq
              rcases closeParen_nil ops with h | ⟨ops2, h⟩
              · exact Or.inl ⟨.stackUnderflow, by simp [parseChars, hs, hd, hp, h]⟩
              · rw [show parseChars (n+1) (')' :: rest) ⟨[], ops⟩
                    = parseChars n rest ⟨[], ops2⟩ from by simp [parseChars, hs, hd, hp, h]]
                exact ih rest ops2
            · by_cases ho : is_operator c = true
              · rcases shuntLoop_nil c ops with h | ⟨ops2, h⟩
                · exact Or.inl ⟨.stackUnderflow, by simp [parseChars, hs, hd, hp, hq, ho, h]⟩
                · rw [show parseChars (n+1) (c :: rest) ⟨[], ops⟩
                      = parseChars n rest ⟨[], c :: ops2⟩ from by
                        simp [parseChars, hs, hd, hp, hq, ho, h]]
                  exact ih rest (c :: ops2)
              · rw [show parseChars (n+1) (c :: rest) ⟨[], ops⟩
                    = parseChars n rest ⟨[], ops⟩ from by simp [parseChars, hs, hd, hp, hq, ho]]
                exact ih rest ops

/-- Draining the operator stack over an empty operand stack either
succeeds trivially (no operators) or hits the empty-stack undefined
behaviour. -/
theorem drainAll_nil (ops : List Char) :
    drainAll ops [] = .ok [] ∨ drainAll ops [] = .error .stackUnderflow := by
  cases ops with
  | nil => exact Or.inl rfl
  | cons o os => exact Or.inr (by simp [drainAll, reduceTop])

/-- `evaluate` is pure: with the receiver threaded explicitly, the tree
comes back unchanged and the value is the pure evaluation function. -/
theorem evalMut_spec : ∀ t : Node, evalMut t = (t, evalNode t)
  | .num v => rfl
  | .op c l r => by
    have hl := evalMut_spec l
    have hr := evalMut_spec r
    simp [evalMut, evalNode, hl, hr]
    cases evalNode l with
    | error e => simp
    | ok lv =>
      cases evalNode r with
      | error e => simp
      | ok rv => simp

/-! ### Claim theorems -/

/-- Claim C1 (refuted by the code): the claim says `parse` followed by
`evaluate` reproduces standard arithmetic on well-formed expressions, with
`"2 + 3 * 4" = 14.0`, `"(2 + 3) * 4" = 20.0`, `"10 - 3 - 2" = 5.0`.  In
fact `parse_expression` throws `std::invalid_argument` on all three
inputs: the number-scanning condition at line 104 places `||` inside the
`isdigit` call, so the scanner accumulates nothing and `std::stod` is
applied to the empty string at the first digit. -/
theorem c1_parse_rejects_all_wellformed_examples :
    parse_expression "2 + 3 * 4" = .error .numberError ∧
    parse_expression "(2 + 3) * 4" = .error .numberError ∧
    parse_expression "10 - 3 - 2" = .error .numberError :=
  ⟨rfl, rfl, rfl⟩

/-- Claim C2 (refuted by the code): the claim says the scanner consumes
the maximal run of digits and at most one decimal point and produces the
numeral's value.  In fact the scanning loop consumes no characters at all
(its condition is `isdigit` of a boolean), so every numeral — e.g. both
numbers of `"3+4"` — makes `std::stod("")` throw `std::invalid_argument`. -/
theorem c2_scanner_consumes_no_digits :
    (∀ cs acc, scanNumber cs acc = (acc, cs)) ∧
    parse_expression "3+4" = .error .numberError :=
  ⟨scanNumber_consumes_nothing, rfl⟩

/-- Claim C3 (refuted by the code): the claim says unbalanced parentheses
fail with `ParseError`.  In fact `")"` hits `top()` on the empty operand
stack (undefined behaviour, not a thrown error); handling `)` with no `(`
on the operator stack simply does nothing (second conjunct); and
`"(2 + 3"` / `"2 + 3)"` throw only the unrelated `std::invalid_argument`
of the broken number scanner, before any parenthesis is examined. -/
theorem c3_unbalanced_parens_no_parse_error_check :
    parse_expression ")" = .error .stackUnderflow ∧
    closeParen ⟨[], []⟩ = .ok ⟨[], []⟩ ∧
    parse_expression "(2 + 3" = .error .numberError ∧
    parse_expression "2 + 3)" = .error .numberError :=
  ⟨rfl, rfl, rfl, rfl⟩

/-- Claim C4 (refuted by the code): the claim says parsing fails with
`ParseError` when zero or more than one node remains, with `""` and
`"2 3"` as witnesses.  In fact `""` reaches `values.top()` on an empty
stack — undefined behaviour, not a thrown `ParseError` — and `"2 3"`
throws the number scanner's `std::invalid_argument` at the first digit;
no count of remaining operand nodes is ever checked (the source returns
`values.top()` unconditionally). -/
theorem c4_final_state_unchecked :
    parse_expression "" = .error .stackUnderflow ∧
    parse_expression "2 3" = .error .numberError :=
  ⟨rfl, rfl⟩

/-- Claim C5, counterexample: the claim says an unrecognized character
fails with `ParseError("unexpected character")`.  On the input `"@"` the
code raises no such error — it skips the character and then hits the
empty-operand-stack undefined behaviour at `values.top()`. -/
theorem c5_counterexample :
    parse_expression "@" = .error .stackUnderflow ∧
    parse_expression "@" ≠ .error .unexpectedChar := by
  refine ⟨rfl, ?_⟩
  intro h
  rw [show parse_expression "@" = Except.error ParseErr.stackUnderflow from rfl] at h
  exact ParseErr.noConfusion (Except.error.inj h)

/-- Claim C5, amended: a character that is not whitespace, not a digit,
not a parenthesis and not one of the four operators matches no branch of
the `if`/`else if` chain and is silently skipped — the parser state is
unchanged and scanning proceeds with the next character. -/
theorem c5_unknown_chars_silently_skipped (fuel : Nat) (c : Char) (cs : List Char)
    (st : PState) (h1 : isSpaceC c = false) (h2 : isDigitC c = false)
    (h3 : c ≠ '(') (h4 : c ≠ ')') (h5 : is_operator c = false) :
    parseChars (fuel + 1) (c :: cs) st = parseChars fuel cs st := by
  simp [parseChars, h1, h2, h3, h4, h5]

/-- Witness for the amended C5 at the concrete character `'@'`. -/
theorem c5_unknown_chars_silently_skipped_witness :
    parseChars 2 ['@'] ⟨[], []⟩ = parseChars 1 [] ⟨[], []⟩ :=
  c5_unknown_chars_silently_skipped 1 '@' [] ⟨[], []⟩ rfl rfl (by decide) (by decide) rfl

/-- Claim C6 (vacuous on the code): the claim describes the structure of
trees returned by `parse_expression`; in fact the function never returns
a tree on any input.  A `NumberNode` is never pushed (the digit branch
always throws from `stod ""`), so the operand stack stays empty, and the
run ends in a thrown exception or in the empty-stack undefined
behaviour. -/
theorem c6_parse_never_returns_a_tree (s : String) :
    ∃ e, parse_expression s = Except.error e := by
  unfold parse_expression
  rcases parseChars_nil (s.length + 1) s.data [] with ⟨e, h⟩ | ⟨ops2, h⟩
  · exact ⟨e, by rw [h]⟩
  · rcases drainAll_nil ops2 with h2 | h2
    · exact ⟨.stackUnderflow, by rw [h]; simp [h2]⟩
    · exact ⟨.stackUnderflow, by rw [h]; simp [h2]⟩

/-- Claim C7 (refuted by the code on its concrete example): evaluating
the parse of `"5 / 0"` cannot fail with `DivisionByZeroError` because
`parse_expression "5 / 0"` already throws `std::invalid_argument` in the
broken number scanner, so `evaluate` never runs.  The second conjunct
shows the division guard itself does fire on the tree the parse was
supposed to build. -/
theorem c7_division_by_zero_unreachable_through_parse :
    parse_expression "5 / 0" = .error .numberError ∧
    evalNode (.op '/' (.num 5) (.num 0)) = .error .divisionByZero :=
  ⟨rfl, rfl⟩

/-- Claim C8 (confirmed): `evaluate` is a pure function of the immutable
tree — with the receiver object threaded explicitly, evaluation returns
the tree unchanged, its value is the pure evaluation function, and a
second call on the returned tree yields the same result. -/
theorem c8_evaluate_pure_and_idempotent (t : Node) :
    evalMut t = (t, evalNode t) ∧ (evalMut (evalMut t).1).2 = (evalMut t).2 := by
  refine ⟨evalMut_spec t, ?_⟩
  simp [evalMut_spec]

/-- Claim C9 (confirmed): the precedence functor returns `1` for `+` and
`-`, `2` for `*` and `/`, and `0` for every other character. -/
theorem c9_precedence_table (c : Char) :
    precedence c = if c = '+' ∨ c = '-' then 1 else if c = '*' ∨ c = '/' then 2 else 0 := by
  by_cases h1 : c = '+'
  · subst h1; rfl
  · by_cases h2 : c = '-'
    · subst h2; rfl
    · by_cases h3 : c = '*'
      · subst h3; rfl
      · by_cases h4 : c = '/'
        · subst h4; rfl
        · have b1 : (c == '+') = false := beq_eq_false_iff_ne.mpr h1
          have b2 : (c == '-') = false := beq_eq_false_iff_ne.mpr h2
          have b3 : (c == '*') = false := beq_eq_false_iff_ne.mpr h3
          have b4 : (c == '/') = false := beq_eq_false_iff_ne.mpr h4
          simp [precedence, precedence_map, List.lookup, b1, b2, b3, b4, h1, h2, h3, h4]

end Calculator
